import Mathlib

/-!
Shallow embedding of the life-expectancy preprocessing pipeline
(`DataPreprocessor.fit` / `DataPreprocessor.transform` / `fit_transform`,
`add_features`, and the split → impute → featurize → drop-Country →
scale → predict orchestration of the notebook).

Modelling conventions:
* A cell of a numeric column is `Option ℚ` (`none` models a pandas `NaN`).
* A `Row` carries the `Country` key as a dedicated field (in the source data
  the group-by key is never missing), the `Status` cell (which may hold a
  string before encoding or a number after encoding, hence the `SVal` sum),
  and a total valuation `num : String → Option ℚ` of the numeric columns;
  the frame's numeric schema is the `numCols` list of the `DataFrame`.
* `data.columns[data.isna().any()]` is modelled as the scan of the numeric
  schema, since in the modelled frames all missing values live in numeric
  columns.
* The pandas `Series` produced by `groupby('Country')[col].mean()` is an
  association list from country keys to `Option ℚ`: a country whose values
  are all missing gets the entry `none` (pandas: a `NaN` mean), mirroring
  that `Series.get(key, default)` returns the stored `NaN` rather than the
  default when the key is present.
* Methods that mutate `self` are state transformers `State → ...`;
  `transform`, whose Python body never assigns to `self`, is additionally
  exposed in method form `transformM` returning the unchanged state,
  so the orchestration can be written by explicit state threading.
* The scaler and the gradient-boosted model are external collaborators: the
  pipeline takes them as opaque row-wise functions.
-/

namespace LifeExp

/-- A cell of the `Status` column: a string before encoding, a number after. -/
inductive SVal where
  | str : String → SVal
  | num : ℚ → SVal
deriving DecidableEq, Repr

/-- One record of a dataset: the `Country` key, the `Status` cell, and the
valuation of the numeric columns (`none` = missing). -/
structure Row where
  country : String
  status : Option SVal
  num : String → Option ℚ

/-- A dataset: its numeric schema and its ordered rows. -/
structure DataFrame where
  numCols : List String
  rows : List Row

/-- Association-list lookup with decidable string keys (a Python dict /
pandas `Series.get` read). -/
def alookup {α : Type} : List (String × α) → String → Option α
  | [], _ => none
  | (k, v) :: rest, c => if k = c then some v else alookup rest c

/-- Association-list store (a Python dict write: overwrite in place if the
key is present, else append). -/
def dictInsert {α : Type} : List (String × α) → String → α → List (String × α)
  | [], k, v => [(k, v)]
  | (k0, v0) :: rest, k, v =>
      if k0 = k then (k, v) :: rest else (k0, v0) :: dictInsert rest k v

/-- The fitted state of `DataPreprocessor`: `self.means_by_country` maps a
column name to the per-country mean series, `self.global_medians` maps a
column name to the column's global median (`none` when the median of an
all-missing column is itself `NaN`). -/
structure State where
  meansByCountry : List (String × List (String × Option ℚ))
  globalMedians : List (String × Option ℚ)
deriving Repr

/-- `DataPreprocessor.__init__`: both dicts start empty. -/
def initState : State := ⟨[], []⟩

/-- Mean of the non-missing values of a column slice, `none` when there is
none (pandas `mean()` skips `NaN` and returns `NaN` on an empty slice). -/
def meanOpt (l : List ℚ) : Option ℚ :=
  if l.isEmpty then none else some (l.sum / (l.length : ℚ))

/-- Insertion into a sorted list of rationals. -/
def insertSorted (x : ℚ) : List ℚ → List ℚ
  | [] => [x]
  | y :: ys => if x ≤ y then x :: y :: ys else y :: insertSorted x ys

/-- Insertion sort of a list of rationals. -/
def sortQ (l : List ℚ) : List ℚ := l.foldr insertSorted []

/-- Median of the non-missing values of a column (pandas `median()`:
middle element of the sorted values, mean of the two middles for an even
count, `NaN` for an empty column). -/
def medianOpt (l : List ℚ) : Option ℚ :=
  let s := sortQ l
  if s.isEmpty then none
  else if s.length % 2 = 1 then some (s.getD (s.length / 2) 0)
  else some ((s.getD (s.length / 2 - 1) 0 + s.getD (s.length / 2) 0) / 2)

/-- `data.columns[data.isna().any()].tolist()`: the numeric columns that
contain at least one missing value. -/
def colsWithNA (d : DataFrame) : List String :=
  d.numCols.filter (fun c => d.rows.any (fun r => (r.num c).isNone))

/-- The distinct country keys of a frame. -/
def countriesOf (d : DataFrame) : List String :=
  (d.rows.map Row.country).dedup

/-- The non-missing values of column `c`. -/
def colValues (d : DataFrame) (c : String) : List ℚ :=
  d.rows.filterMap (fun r => r.num c)

/-- `data.groupby('Country')[col].mean()`: for each country key, the mean of
the country's non-missing values of `col` (`none` when the country has only
missing values there). -/
def groupMeans (d : DataFrame) (c : String) : List (String × Option ℚ) :=
  (countriesOf d).map
    (fun k => (k, meanOpt ((d.rows.filter (fun r => r.country = k)).filterMap
      (fun r => r.num c))))

/-- `DataPreprocessor.fit`: for every column with a missing value, store the
per-country mean series and the global median. Nothing is ever removed from
either dict. -/
def fit (s : State) (d : DataFrame) : State :=
  { meansByCountry :=
      (colsWithNA d).foldl (fun acc c => dictInsert acc c (groupMeans d c))
        s.meansByCountry,
    globalMedians :=
      (colsWithNA d).foldl
        (fun acc c => dictInsert acc c (medianOpt (colValues d c)))
        s.globalMedians }

/-- One cell of the `transform` fill loop. A column outside
`means_by_country` is untouched; a non-missing value passes through; a
missing value becomes `series.get(country, global_median)`: the stored
per-country mean when the key is present (even when that mean is itself
`NaN`), else the global median. `Option.join` collapses the (in the
orchestration unreachable) absent-median-key case to `NaN`. -/
def fillCell (series? : Option (List (String × Option ℚ)))
    (gmed? : Option (Option ℚ)) (country : String) (v : Option ℚ) : Option ℚ :=
  match series? with
  | none => v
  | some series =>
    match v with
    | some x => some x
    | none =>
      match alookup series country with
      | some m => m
      | none => Option.join gmed?

/-- The fill loop of `transform` on one row. -/
def imputeRow (s : State) (r : Row) : Row :=
  { r with num := (fun c =>
      fillCell (alookup s.meansByCountry c) (alookup s.globalMedians c)
        r.country (r.num c)) }

/-- `data['Status'].map({'Developing': 0, 'Developed': 1})` on one cell:
any value outside the two string keys (missing, already-numeric, or an
unexpected string) maps to `NaN`. -/
def encodeStatus : Option SVal → Option SVal
  | some (SVal.str s) =>
      if s = "Developing" then some (SVal.num 0)
      else if s = "Developed" then some (SVal.num 1)
      else none
  | _ => none

/-- `DataPreprocessor.transform` on one row: fill the fitted columns, then
re-encode `Status`. -/
def transformRow (s : State) (r : Row) : Row :=
  { imputeRow s r with status := encodeStatus r.status }

/-- `DataPreprocessor.transform`: a copy of the frame with every row
imputed and `Status` re-encoded. -/
def transform (s : State) (d : DataFrame) : DataFrame :=
  { d with rows := d.rows.map (transformRow s) }

/-- `transform` in method form: the Python body never assigns to `self`,
so the outgoing state is the incoming one. -/
def transformM (s : State) (d : DataFrame) : State × DataFrame :=
  (s, transform s d)

/-- `DataPreprocessor.fit_transform`: `fit`, then `transform` on the same
frame. -/
def fit_transform (s : State) (d : DataFrame) : State × DataFrame :=
  transformM (fit s d) d

/-- `num / den.replace(0, np.nan)` on one pair of cells: the quotient of the
two values, undefined when either is missing or the denominator is zero
(the `replace(0, np.nan)` turns a zero denominator into `NaN`, and any
division involving `NaN` is `NaN`). -/
def ratio (num den : Option ℚ) : Option ℚ :=
  match num, den with
  | some a, some b => if b = 0 then none else some (a / b)
  | _, _ => none

/-- `add_features` on one row: the three synthesized columns, each a ratio
of two existing cells; every other column is untouched. -/
def addRowFeatures (r : Row) : Row :=
  { r with num := (fun c =>
      if c = "GDP_per_capita" then ratio (r.num "GDP") (r.num "Population")
      else if c = "Child_mortality_ratio" then
        ratio (r.num "under-five deaths") (r.num "infant deaths")
      else if c = "Health_expenditure_per_GDP" then
        ratio (r.num "Total expenditure") (r.num "GDP")
      else r.num c) }

/-- `add_features`: a copy of the frame with the three derived columns
appended to the schema and computed row-wise. -/
def add_features (d : DataFrame) : DataFrame :=
  { numCols := d.numCols ++
      ["GDP_per_capita", "Child_mortality_ratio", "Health_expenditure_per_GDP"],
    rows := d.rows.map addRowFeatures }

/-- A row after `drop('Country', axis=1)`: the `Status` cell and the numeric
valuation, without the country key. -/
structure FRow where
  status : Option SVal
  num : String → Option ℚ

/-- Projection of a row to its post-drop form. -/
def toFRow (r : Row) : FRow := ⟨r.status, r.num⟩

/-- `X.drop('Country', axis=1)`: the rows without the country column. -/
def dropCountry (d : DataFrame) : List FRow := d.rows.map toFRow

/-- The whole per-partition preprocessing chain of the notebook cell:
`transform`, then `add_features`, then drop `Country` — exactly what is
handed to the scaler, with no intervening check for undefined values. -/
def preScalingInput (s : State) (d : DataFrame) : List FRow :=
  dropCountry (add_features (transform s d))

/-- The per-row function the preprocessing chain applies. -/
def pipeRow (s : State) (r : Row) : FRow :=
  toFRow (addRowFeatures (transformRow s r))

/-- Result of the preprocessing orchestration: final preprocessor state and
the three transformed partitions. -/
structure PreOut where
  st : State
  xtr : DataFrame
  xval : DataFrame
  xtest : DataFrame

/-- The notebook's preprocessing orchestration, with the preprocessor state
threaded explicitly through every method call:
`preprocessor = DataPreprocessor(); X_train = preprocessor.fit_transform(X_train);
X_val = preprocessor.transform(X_val); X_test = preprocessor.transform(test_data)`. -/
def runPreproc (train val test : DataFrame) : PreOut :=
  let s0 := initState
  let p1 := fit_transform s0 train
  let p2 := transformM p1.1 val
  let p3 := transformM p2.1 test
  ⟨p3.1, p1.2, p2.2, p3.2⟩

/-- The test-set branch of the pipeline down to the submission column:
preprocess, scale with the externally fitted scaler, predict with the
externally fitted model (`scale` and `predict` are the opaque external
collaborators). -/
def pipelineSubmission (scale : List FRow → List (List ℚ))
    (predict : List (List ℚ) → List ℚ) (s : State) (test : DataFrame) :
    List ℚ :=
  predict (scale (preScalingInput s test))

/-- Sample row: country `A`, every numeric cell missing. -/
def rowA : Row := ⟨"A", some (SVal.str "Developing"), fun _ => none⟩

/-- Sample row: country `B`, column `c` holds 10. -/
def rowB : Row :=
  ⟨"B", some (SVal.str "Developed"), fun c => if c = "c" then some 10 else none⟩

/-- Sample row: country `B`, every numeric cell missing. -/
def rowBmiss : Row := ⟨"B", none, fun _ => none⟩

/-- Sample row: country `U` (unseen in the sample frames), all cells missing. -/
def rowU : Row := ⟨"U", none, fun _ => none⟩

/-- Sample frame: column `c` is missing for the whole of country `A` and
holds 10 for country `B`. -/
def frameAB : DataFrame := ⟨["c"], [rowA, rowB]⟩

/-- Sample row with a defined value in column `c`. -/
def rowD : Row :=
  ⟨"A", some (SVal.str "Developing"), fun c => if c = "c" then some 1 else some 0⟩

/-- Sample frame with no missing value in its numeric schema. -/
def frameD : DataFrame := ⟨["c"], [rowD]⟩

/-- Sample row whose `Status` value is outside the fixed binary mapping. -/
def rowZ : Row := ⟨"A", some (SVal.str "Foo"), fun _ => some 0⟩

/-- Sample frame carrying the unexpected `Status` value. -/
def frameZ : DataFrame := ⟨[], [rowZ]⟩

/-- Sample row with `infant deaths = 0`, so that the synthesized
child-mortality ratio is undefined. -/
def rowF : Row :=
  ⟨"A", some (SVal.str "Developing"), fun c =>
    if c = "GDP" then some 4
    else if c = "Population" then some 2
    else if c = "under-five deaths" then some 5
    else if c = "infant deaths" then some 0
    else if c = "Total expenditure" then some 3
    else some 0⟩

/-- Sample frame for the feature-synthesis stage, fully defined, with a zero
denominator for the child-mortality ratio. -/
def frameF : DataFrame :=
  ⟨["GDP", "Population", "under-five deaths", "infant deaths",
    "Total expenditure"], [rowF]⟩

/-- Default post-drop row, used as the `getD` fallback. -/
def defFRow : FRow := ⟨none, fun _ => none⟩

/-- Sample 80-row test frame. -/
def frame80 : DataFrame := ⟨["c"], List.replicate 80 rowD⟩

/-- A dict write is visible at the written key. -/
theorem alookup_dictInsert_self {α : Type} (l : List (String × α)) (k : String)
    (v : α) : alookup (dictInsert l k v) k = some v := by
  induction l with
  | nil => simp [dictInsert, alookup]
  | cons p rest ih =>
    obtain ⟨k0, v0⟩ := p
    by_cases h : k0 = k
    · simp [dictInsert, alookup, h]
    · simp [dictInsert, alookup, h, ih]

/-- A dict write is invisible at every other key. -/
theorem alookup_dictInsert_ne {α : Type} (l : List (String × α)) (k k' : String)
    (v : α) (h : k' ≠ k) : alookup (dictInsert l k v) k' = alookup l k' := by
  induction l with
  | nil => simp [dictInsert, alookup, Ne.symm h]
  | cons p rest ih =>
    obtain ⟨k0, v0⟩ := p
    by_cases h0 : k0 = k
    · subst h0
      simp [dictInsert, alookup, Ne.symm h]
    · simp [dictInsert, alookup, h0, ih]

/-- Lookup after a fold of dict writes keyed by a list: the written value if
the key is in the list, the original binding otherwise. -/
theorem alookup_foldl_dictInsert {α : Type} (f : String → α) (l : List String)
    (s0 : List (String × α)) (c : String) :
    alookup (l.foldl (fun acc x => dictInsert acc x (f x)) s0) c
      = if c ∈ l then some (f c) else alookup s0 c := by
  induction l generalizing s0 with
  | nil => simp
  | cons x xs ih =>
    simp only [List.foldl_cons]
    rw [ih]
    by_cases hx : c ∈ xs
    · simp [hx, List.mem_cons]
    · by_cases hc : x = c
      · subst hc
        simp [hx, alookup_dictInsert_self]
      · have hne : c ≠ x := Ne.symm hc
        simp [hx, hc, hne, List.mem_cons, alookup_dictInsert_ne _ _ _ _ hne]

/-- What `fit` stores in `means_by_country`, seen through lookup. -/
theorem fit_means_alookup (s : State) (d : DataFrame) (c : String) :
    alookup (fit s d).meansByCountry c
      = if c ∈ colsWithNA d then some (groupMeans d c)
        else alookup s.meansByCountry c :=
  alookup_foldl_dictInsert (fun x => groupMeans d x) (colsWithNA d)
    s.meansByCountry c

/-- What `fit` stores in `global_medians`, seen through lookup. -/
theorem fit_medians_alookup (s : State) (d : DataFrame) (c : String) :
    alookup (fit s d).globalMedians c
      = if c ∈ colsWithNA d then some (medianOpt (colValues d c))
        else alookup s.globalMedians c :=
  alookup_foldl_dictInsert (fun x => medianOpt (colValues d x)) (colsWithNA d)
    s.globalMedians c

/-- The encoded `Status` cell is never a string, so a second encoding pass
always yields a missing value. -/
theorem encodeStatus_encodeStatus (v : Option SVal) :
    encodeStatus (encodeStatus v) = none := by
  match v with
  | none => rfl
  | some (SVal.num q) => rfl
  | some (SVal.str s) =>
    simp only [encodeStatus]
    by_cases h1 : s = "Developing"
    · simp [h1]
    · by_cases h2 : s = "Developed"
      · simp [h1, h2]
      · simp [h1, h2]

/-- The mean of a one-element slice is its element. -/
theorem meanOpt_single (x : ℚ) : meanOpt [x] = some x := by
  norm_num [meanOpt]

/-- C5: in the orchestration the Imputer's learned state is exactly the one
produced by fitting on the training partition; the validation and test
partitions are only transformed with that single state, and a `transform`
call returns its incoming state unchanged (it never re-fits or writes the
fitted state). -/
theorem imputer_state_fit_only (train val test : DataFrame) :
    (runPreproc train val test).st = fit initState train
    ∧ (runPreproc train val test).xtr = transform (fit initState train) train
    ∧ (runPreproc train val test).xval = transform (fit initState train) val
    ∧ (runPreproc train val test).xtest = transform (fit initState train) test
    ∧ ∀ (s : State) (d : DataFrame), (transformM s d).1 = s :=
  ⟨rfl, rfl, rfl, rfl, fun _ _ => rfl⟩

/-- C9: `transform` is not idempotent on `Status`: the first pass encodes
`Status` to 0/1, neither 0 nor 1 is a key of the fixed mapping, so a second
pass with the same fitted state maps every `Status` value to missing. -/
theorem transform_twice_status_missing (s : State) (d : DataFrame) :
    encodeStatus (some (SVal.num 0)) = none
    ∧ encodeStatus (some (SVal.num 1)) = none
    ∧ ((transform s (transform s d)).rows.map Row.status).all Option.isNone
        = true := by
  refine ⟨rfl, rfl, ?_⟩
  simp [transform, transformRow, List.all_eq_true, encodeStatus_encodeStatus]

/-- C7: `add_features` appends exactly the three documented columns to the
schema, is computed row-wise (a `List.map`, hence independent of row order:
it maps permuted inputs to permuted outputs), each new cell is the
documented ratio of existing cells, and a zero denominator yields a missing
value, never an infinity. -/
theorem add_features_rowwise (d : DataFrame) :
    (add_features d).numCols = d.numCols ++
      ["GDP_per_capita", "Child_mortality_ratio", "Health_expenditure_per_GDP"]
    ∧ (add_features d).rows = d.rows.map addRowFeatures
    ∧ (∀ r : Row,
        (addRowFeatures r).num "GDP_per_capita"
          = ratio (r.num "GDP") (r.num "Population")
        ∧ (addRowFeatures r).num "Child_mortality_ratio"
          = ratio (r.num "under-five deaths") (r.num "infant deaths")
        ∧ (addRowFeatures r).num "Health_expenditure_per_GDP"
          = ratio (r.num "Total expenditure") (r.num "GDP"))
    ∧ (∀ v : Option ℚ, ratio v (some 0) = none)
    ∧ (∀ d2 : DataFrame, d.rows.Perm d2.rows →
        (add_features d).rows.Perm (add_features d2).rows) := by
  refine ⟨rfl, rfl, fun r => ⟨?_, ?_, ?_⟩, fun v => ?_, fun d2 h => ?_⟩
  · simp [addRowFeatures]
  · simp [addRowFeatures]
  · simp [addRowFeatures]
  · cases v <;> simp [ratio]
  · simpa [add_features] using h.map addRowFeatures

/-- C7 witness: the theorem applied to the sample frame, with the
permutation hypothesis discharged by reflexivity. -/
theorem add_features_rowwise_w :
    (add_features frameF).rows.Perm (add_features frameF).rows
    ∧ (add_features frameF).rows = frameF.rows.map addRowFeatures
    ∧ (addRowFeatures rowF).num "Child_mortality_ratio"
        = ratio (rowF.num "under-five deaths") (rowF.num "infant deaths") :=
  ⟨(add_features_rowwise frameF).2.2.2.2 frameF (List.Perm.refl _),
   (add_features_rowwise frameF).2.1,
   ((add_features_rowwise frameF).2.2.1 rowF).2.1⟩

/-- C6: for every column with at least one missing training value, `fit`
stores the per-country mean series and the column's global median; and for
a row whose country was present at fit with a defined per-country mean, a
missing value is filled with exactly that grouped mean. -/
theorem impute_uses_fitted_group_mean (dfit : DataFrame) (c : String) (r : Row)
    (m : ℚ) (hc : c ∈ colsWithNA dfit) (hmiss : r.num c = none)
    (hm : alookup (groupMeans dfit c) r.country = some (some m)) :
    alookup (fit initState dfit).meansByCountry c = some (groupMeans dfit c)
    ∧ alookup (fit initState dfit).globalMedians c
        = some (medianOpt (colValues dfit c))
    ∧ (imputeRow (fit initState dfit) r).num c = some m := by
  have h1 : alookup (fit initState dfit).meansByCountry c
      = some (groupMeans dfit c) := by
    rw [fit_means_alookup]
    simp [hc]
  have h2 : alookup (fit initState dfit).globalMedians c
      = some (medianOpt (colValues dfit c)) := by
    rw [fit_medians_alookup]
    simp [hc]
  refine ⟨h1, h2, ?_⟩
  simp [imputeRow, h1, h2, fillCell, hmiss, hm]

/-- C6 witness: in the sample frame, country `B` has the defined grouped
mean 10 for column `c`, and the missing cell of a `B`-row is filled with it. -/
theorem impute_uses_fitted_group_mean_w :
    "c" ∈ colsWithNA frameAB
    ∧ alookup (groupMeans frameAB "c") "B" = some (some 10)
    ∧ (alookup (fit initState frameAB).meansByCountry "c"
        = some (groupMeans frameAB "c")
      ∧ alookup (fit initState frameAB).globalMedians "c"
        = some (medianOpt (colValues frameAB "c"))
      ∧ (imputeRow (fit initState frameAB) rowBmiss).num "c" = some 10) :=
  have hb : alookup (groupMeans frameAB "c") "B" = some (some 10) := by
    have h0 : alookup (groupMeans frameAB "c") "B" = some (meanOpt [10]) := rfl
    rw [h0, meanOpt_single]
  ⟨by decide, hb,
   impute_uses_fitted_group_mean frameAB "c" rowBmiss 10 (by decide) rfl hb⟩

/-- C1 counterexample: in the sample frame, country `A` was present at fit
but column `c` is missing for every `A`-row, so its per-country mean is
undefined; the claim predicts a fill by the global median 10, but
`transform` leaves the cell missing (`Series.get` returns the stored
undefined mean because the key is present). -/
theorem impute_undefined_mean_cex :
    "c" ∈ colsWithNA frameAB
    ∧ alookup (groupMeans frameAB "c") "A" = some none
    ∧ alookup (fit initState frameAB).globalMedians "c" = some (some 10)
    ∧ ((transform (fit initState frameAB) frameAB).rows.getD 0 rowA).num "c"
        = none
    ∧ (none : Option ℚ) ≠ some 10 := by decide

/-- C1 amended: a missing value in a fitted column is filled with the
global median exactly when the row's country key was absent at fit time;
when the key was present but its per-country mean is undefined, the cell
stays missing. -/
theorem impute_fallback_amended (dfit : DataFrame) (c : String) (r : Row)
    (hc : c ∈ colsWithNA dfit) (hmiss : r.num c = none) :
    (alookup (groupMeans dfit c) r.country = none →
      (imputeRow (fit initState dfit) r).num c = medianOpt (colValues dfit c))
    ∧ (alookup (groupMeans dfit c) r.country = some none →
      (imputeRow (fit initState dfit) r).num c = none) := by
  have h1 : alookup (fit initState dfit).meansByCountry c
      = some (groupMeans dfit c) := by
    rw [fit_means_alookup]
    simp [hc]
  have h2 : alookup (fit initState dfit).globalMedians c
      = some (medianOpt (colValues dfit c)) := by
    rw [fit_medians_alookup]
    simp [hc]
  constructor
  · intro habs
    simp [imputeRow, h1, h2, fillCell, hmiss, habs]
  · intro hundef
    simp [imputeRow, h1, h2, fillCell, hmiss, hundef]

/-- C1 amended witness: the unseen country `U` gets the global median while
the present-but-all-missing country `A` keeps a missing cell. -/
theorem impute_fallback_amended_w :
    "c" ∈ colsWithNA frameAB
    ∧ (imputeRow (fit initState frameAB) rowU).num "c"
        = medianOpt (colValues frameAB "c")
    ∧ (imputeRow (fit initState frameAB) rowA).num "c" = none :=
  ⟨by decide,
   (impute_fallback_amended frameAB "c" rowU (by decide) rfl).1 (by decide),
   (impute_fallback_amended frameAB "c" rowA (by decide) rfl).2 (by decide)⟩

/-- C2 counterexample: on a frame whose `Status` value is the unexpected
string `Foo`, `transform` does not fail: it returns a frame in which the
value has been silently coerced to missing — the exact behaviour the claim
says is replaced by a fatal SchemaError. -/
theorem status_unknown_cex :
    rowZ.status = some (SVal.str "Foo")
    ∧ ((transform initState frameZ).rows.getD 0 rowZ).status = none
    ∧ (transform initState frameZ).rows.length = frameZ.rows.length := by
  decide

/-- C2 amended: `transform` silently maps every `Status` value outside the
fixed binary mapping (an unexpected string, an already-numeric value, or a
missing value) to missing; no error is raised and every row is kept. -/
theorem status_unknown_amended (s : State) (d : DataFrame) (v : Option SVal)
    (h1 : v ≠ some (SVal.str "Developing"))
    (h2 : v ≠ some (SVal.str "Developed")) :
    encodeStatus v = none
    ∧ (transform s d).rows.map Row.status
        = d.rows.map (fun r => encodeStatus r.status) := by
  constructor
  · match v with
    | none => rfl
    | some (SVal.num q) => rfl
    | some (SVal.str t) =>
      have ht1 : t ≠ "Developing" := fun ht => h1 (by rw [ht])
      have ht2 : t ≠ "Developed" := fun ht => h2 (by rw [ht])
      simp [encodeStatus, ht1, ht2]
  · simp [transform, transformRow]

/-- C2 amended witness: the unexpected value `Foo` is encoded to missing on
the sample frame. -/
theorem status_unknown_amended_w :
    encodeStatus (some (SVal.str "Foo")) = none
    ∧ (transform initState frameZ).rows.map Row.status
        = frameZ.rows.map (fun r => encodeStatus r.status) :=
  status_unknown_amended initState frameZ (some (SVal.str "Foo"))
    (by decide) (by decide)

/-- C3 counterexample: in the sample frame no column has a missing value at
fit time, yet `transform` is not the identity on the `Status` column — it
re-encodes `Developing` to 0. -/
theorem transform_status_not_identity_cex :
    colsWithNA frameD = []
    ∧ (frameD.rows.getD 0 rowD).status = some (SVal.str "Developing")
    ∧ ((transform (fit initState frameD) frameD).rows.getD 0 rowD).status
        = some (SVal.num 0)
    ∧ some (SVal.num 0) ≠ some (SVal.str "Developing") := by
  decide

/-- C3 amended: for every numeric column with no missing value at fit time,
`transform` is the identity on that column for every input frame, and it
also leaves the `Country` column unchanged; the `Status` column, however,
is always re-encoded. -/
theorem transform_identity_no_na_cols (dfit d : DataFrame) (c : String)
    (hc : c ∉ colsWithNA dfit) :
    (transform (fit initState dfit) d).rows.map (fun r => r.num c)
      = d.rows.map (fun r => r.num c)
    ∧ (transform (fit initState dfit) d).rows.map Row.country
      = d.rows.map Row.country
    ∧ (transform (fit initState dfit) d).rows.map Row.status
      = d.rows.map (fun r => encodeStatus r.status) := by
  have h1 : alookup (fit initState dfit).meansByCountry c = none := by
    rw [fit_means_alookup]
    simp [hc, initState, alookup]
  refine ⟨?_, ?_, ?_⟩
  · simp [transform, transformRow, imputeRow, fillCell, h1]
  · simp [transform, transformRow, imputeRow]
  · simp [transform, transformRow]

/-- C3 amended witness: column `c` has no missing fit value in the sample
frame, and `transform` leaves it (and `Country`) unchanged on another
frame. -/
theorem transform_identity_no_na_cols_w :
    "c" ∉ colsWithNA frameD
    ∧ ((transform (fit initState frameD) frameAB).rows.map (fun r => r.num "c")
        = frameAB.rows.map (fun r => r.num "c")
      ∧ (transform (fit initState frameD) frameAB).rows.map Row.country
        = frameAB.rows.map Row.country
      ∧ (transform (fit initState frameD) frameAB).rows.map Row.status
        = frameAB.rows.map (fun r => encodeStatus r.status)) :=
  ⟨by decide, transform_identity_no_na_cols frameD frameAB "c" (by decide)⟩

/-- C4 counterexample: on the sample frame `infant deaths` is 0, so the
synthesized child-mortality ratio is undefined after imputation; the
pre-scaling input still contains that undefined value and still has its
row — nothing failed, nothing was dropped, no UndefinedValueError exists
in the workflow. -/
theorem residual_undefined_reaches_scaler_cex :
    colsWithNA frameF = []
    ∧ ((preScalingInput (fit initState frameF) frameF).getD 0 defFRow).num
        "Child_mortality_ratio" = none
    ∧ (preScalingInput (fit initState frameF) frameF).length = 1 := by
  decide

/-- C4 amended: the workflow performs no definedness check between feature
synthesis and scaling: the pre-scaling input is computed row-wise from the
input rows (one output row per input row, none dropped), and a row whose
imputed `infant deaths` is zero hands the scaler an undefined
child-mortality ratio unchanged. -/
theorem residual_undefined_passed_silently (s : State) (d : DataFrame)
    (r : Row) (hz : (imputeRow s r).num "infant deaths" = some 0) :
    preScalingInput s d = d.rows.map (pipeRow s)
    ∧ (preScalingInput s d).length = d.rows.length
    ∧ (pipeRow s r).num "Child_mortality_ratio" = none := by
  refine ⟨?_, ?_, ?_⟩
  · simp [preScalingInput, dropCountry, add_features, transform, pipeRow,
      List.map_map]
  · simp [preScalingInput, dropCountry, add_features, transform]
  · have hpr : (pipeRow s r).num "Child_mortality_ratio"
        = ratio ((imputeRow s r).num "under-five deaths")
            ((imputeRow s r).num "infant deaths") := by
      simp [pipeRow, toFRow, addRowFeatures, transformRow]
    rw [hpr, hz]
    cases h : (imputeRow s r).num "under-five deaths" <;> simp [ratio]

/-- C4 amended witness: the sample frame's single row reaches the scaler
with an undefined child-mortality ratio. -/
theorem residual_undefined_passed_silently_w :
    (imputeRow (fit initState frameF) rowF).num "infant deaths" = some 0
    ∧ ((preScalingInput (fit initState frameF) frameF).length
        = frameF.rows.length
      ∧ (pipeRow (fit initState frameF) rowF).num "Child_mortality_ratio"
        = none) :=
  have hz : (imputeRow (fit initState frameF) rowF).num "infant deaths"
      = some 0 := by decide
  ⟨hz,
   (residual_undefined_passed_silently (fit initState frameF) frameF rowF
      hz).2.1,
   (residual_undefined_passed_silently (fit initState frameF) frameF rowF
      hz).2.2⟩

/-- C10: `fit` never clears previously learned state: after a second fit on
a frame in which column `c` has no missing value, the per-country means and
the global median recorded for `c` by the first fit are still present, and
a subsequent `transform` fills missing `c`-cells exactly as it would with
the first fit's state alone. -/
theorem fit_retains_stale_state (d1 d2 : DataFrame) (c : String)
    (h1 : c ∈ colsWithNA d1) (h2 : c ∉ colsWithNA d2) :
    alookup (fit (fit initState d1) d2).meansByCountry c
      = some (groupMeans d1 c)
    ∧ alookup (fit (fit initState d1) d2).globalMedians c
      = some (medianOpt (colValues d1 c))
    ∧ ∀ r : Row, (imputeRow (fit (fit initState d1) d2) r).num c
        = (imputeRow (fit initState d1) r).num c := by
  have hm1 : alookup (fit initState d1).meansByCountry c
      = some (groupMeans d1 c) := by
    rw [fit_means_alookup]
    simp [h1]
  have hg1 : alookup (fit initState d1).globalMedians c
      = some (medianOpt (colValues d1 c)) := by
    rw [fit_medians_alookup]
    simp [h1]
  have hm2 : alookup (fit (fit initState d1) d2).meansByCountry c
      = some (groupMeans d1 c) := by
    rw [fit_means_alookup]
    simp [h2, hm1]
  have hg2 : alookup (fit (fit initState d1) d2).globalMedians c
      = some (medianOpt (colValues d1 c)) := by
    rw [fit_medians_alookup]
    simp [h2, hg1]
  refine ⟨hm2, hg2, fun r => ?_⟩
  simp [imputeRow, hm1, hg1, hm2, hg2]

/-- C10 witness: column `c` is missing in the first sample frame and fully
defined in the second; the stale statistics survive the second fit and
still drive the fill of a missing `c`-cell. -/
theorem fit_retains_stale_state_w :
    "c" ∈ colsWithNA frameAB
    ∧ "c" ∉ colsWithNA frameD
    ∧ (alookup (fit (fit initState frameAB) frameD).meansByCountry "c"
        = some (groupMeans frameAB "c")
      ∧ alookup (fit (fit initState frameAB) frameD).globalMedians "c"
        = some (medianOpt (colValues frameAB "c"))
      ∧ (imputeRow (fit (fit initState frameAB) frameD) rowBmiss).num "c"
        = (imputeRow (fit initState frameAB) rowBmiss).num "c") :=
  have h := fit_retains_stale_state frameAB frameD "c" (by decide) (by decide)
  ⟨by decide, by decide, h.1, h.2.1, h.2.2 rowBmiss⟩

/-- C8: with the scaler and the model taken as the row-wise external
collaborators they are, an 80-row test set yields a submission of exactly
80 predictions, one per input row and in input row order (the i-th
prediction is the model applied to the preprocessed i-th test row), and
every prediction is a defined value. -/
theorem submission_shape (scale : List FRow → List (List ℚ))
    (predict : List (List ℚ) → List ℚ) (scaleRow : FRow → List ℚ)
    (predictRow : List ℚ → ℚ) (s : State) (test : DataFrame)
    (hs : ∀ xs, scale xs = xs.map scaleRow)
    (hp : ∀ m, predict m = m.map predictRow)
    (ht : test.rows.length = 80) :
    pipelineSubmission scale predict s test
      = test.rows.map (fun r => predictRow (scaleRow (pipeRow s r)))
    ∧ (pipelineSubmission scale predict s test).length = 80
    ∧ ((pipelineSubmission scale predict s test).map Option.some).all
        Option.isSome = true := by
  have hpre : preScalingInput s test = test.rows.map (pipeRow s) := by
    simp [preScalingInput, dropCountry, add_features, transform, pipeRow,
      List.map_map]
  have hmain : pipelineSubmission scale predict s test
      = test.rows.map (fun r => predictRow (scaleRow (pipeRow s r))) := by
    simp [pipelineSubmission, hpre, hs, hp, List.map_map]
  refine ⟨hmain, ?_, ?_⟩
  · rw [hmain]
    simp [ht]
  · simp [List.all_eq_true]

/-- C8 witness: a concrete 80-row frame with trivial row-wise scaler and
model instances. -/
theorem submission_shape_w :
    frame80.rows.length = 80
    ∧ ((pipelineSubmission (fun xs => xs.map (fun _ => ([] : List ℚ)))
          (fun m => m.map (fun _ => (0 : ℚ))) initState frame80).length = 80) :=
  ⟨by decide,
   (submission_shape (fun xs => xs.map (fun _ => ([] : List ℚ)))
      (fun m => m.map (fun _ => (0 : ℚ))) (fun _ => ([] : List ℚ))
      (fun _ => (0 : ℚ)) initState frame80 (fun _ => rfl) (fun _ => rfl)
      (by decide)).2.1⟩

end LifeExp
